import Mathlib

/-!
Shallow embedding of `talpid-core/src/windows.rs` and
`talpid-core/src/offline/linux.rs` (mullvadvpn-app), together with theorems
checking the specification claims against the embedded code.

Machine integers are modelled as `Nat` (with explicit byte arithmetic where
byte order matters); fallible code returns `Except`; the OS is modelled as
explicit oracles passed to each function (query results, notification
registration results, per-round DAD query results).
-/

namespace TalpidWindows

/-- Windows address family constant `AF_INET` (`ws2def`). -/
def AF_INET : Nat := 2

/-- Windows address family constant `AF_INET6` (`ws2def`). -/
def AF_INET6 : Nat := 23

/-- Windows address family constant `AF_UNSPEC` (`ws2def`). -/
def AF_UNSPEC : Nat := 0

/-- Windows error code `ERROR_NOT_FOUND` (`winerror`). -/
def ERROR_NOT_FOUND : Int := 1168

/-- NL_DAD_STATE constant `IpDadStateInvalid` (`nldef`). -/
def IpDadStateInvalid : Nat := 0

/-- NL_DAD_STATE constant `IpDadStateTentative` (`nldef`). -/
def IpDadStateTentative : Nat := 1

/-- NL_DAD_STATE constant `IpDadStateDuplicate` (`nldef`). -/
def IpDadStateDuplicate : Nat := 2

/-- NL_DAD_STATE constant `IpDadStateDeprecated` (`nldef`). -/
def IpDadStateDeprecated : Nat := 3

/-- NL_DAD_STATE constant `IpDadStatePreferred` (`nldef`). -/
def IpDadStatePreferred : Nat := 4

/-- `DAD_CHECK_TIMEOUT` from windows.rs (5 seconds), in milliseconds. -/
def DAD_CHECK_TIMEOUT_MS : Nat := 5000

/-- `DAD_CHECK_INTERVAL` from windows.rs (100 milliseconds), in milliseconds. -/
def DAD_CHECK_INTERVAL_MS : Nat := 100

/-- The `DadStateError` enum of windows.rs. -/
inductive DadStateError where
  | invalid
  | duplicate
  | deprecated
  | unknown (code : Nat)
deriving DecidableEq

/-- The `Error` enum of windows.rs. OS error payloads (`io::Error`) are
modelled by their raw OS error code. -/
inductive Error where
  | noDeviceLuid (osError : Int)
  | obtainUnicastAddress (osError : Int)
  | noUnicastAddress
  | dadStateError (e : DadStateError)
  | deviceReadyTimeout
  | unicastSenderDropped
  | unknownAddressFamily (tag : Nat)
deriving DecidableEq

/-- The `AddressFamily` enum of windows.rs. -/
inductive AddressFamily where
  | Ipv4
  | Ipv6
deriving DecidableEq

/-- Numeric value of an `AddressFamily` (the discriminants `AF_INET` and
`AF_INET6` given in the Rust enum). -/
def AddressFamily.toAf : AddressFamily → Nat
  | .Ipv4 => AF_INET
  | .Ipv6 => AF_INET6

/-- `AddressFamily::try_from_af_family` of windows.rs: matches the incoming
`u16` (read as `i32`, here a `Nat` value below 2^16) against `AF_INET` and
`AF_INET6`; any other value becomes `Error::UnknownAddressFamily` carrying
that value. -/
def AddressFamily.try_from_af_family (family : Nat) : Except Error AddressFamily :=
  if family = AF_INET then Except.ok AddressFamily.Ipv4
  else if family = AF_INET6 then Except.ok AddressFamily.Ipv6
  else Except.error (Error.unknownAddressFamily family)

/-- `af_family_from_family` of windows.rs. -/
def af_family_from_family (family : Option AddressFamily) : Nat :=
  match family with
  | some f => f.toAf
  | none => AF_UNSPEC

/-! ### The address codec

`std::net::Ipv4Addr` and `Ipv6Addr` are modelled by their octet lists (4 and
16 bytes). `IN_ADDR` and `IN6_ADDR` are modelled by the raw bytes of the
structure in memory order, as a list of octets: in the source the octets are
written into these structures with `ptr::copy_nonoverlapping` and read back
either bytewise (`IN6_ADDR`) or through a `u32` load combined with `to_be`
(`IN_ADDR`), which on either endianness reads the memory bytes back as the
octets in order, so both conversions are byte copies of the octet list.

A `u16` stored "in network byte order" as `x.to_be()` holds, as a host
value on a little-endian machine, the byte swap of `x`; `u16::from_be`
applies the same swap. `swap16` models both (on a big-endian host both are
the identity, and the composition below is the identity either way). -/

/-- Byte swap of a 16-bit value, modelling `u16::to_be` and `u16::from_be`
on a little-endian host. -/
def swap16 (x : Nat) : Nat := (x % 256) * 256 + (x / 256) % 256

/-- `u16::to_be` as used for `sin_port`/`sin6_port` in windows.rs. -/
def u16_to_be : Nat → Nat := swap16

/-- `u16::from_be` as used when decoding ports in windows.rs. -/
def u16_from_be : Nat → Nat := swap16

/-- `inaddr_from_ipaddr` of windows.rs: `copy_nonoverlapping` of the four
octets into the `IN_ADDR` bytes. -/
def inaddr_from_ipaddr (addr : List Nat) : List Nat := addr

/-- `in6addr_from_ipaddr` of windows.rs: `copy_nonoverlapping` of the sixteen
octets into the `IN6_ADDR` bytes. -/
def in6addr_from_ipaddr (addr : List Nat) : List Nat := addr

/-- `ipaddr_from_inaddr` of windows.rs: the `u32` load of `S_addr` followed by
`to_be` and `Ipv4Addr::from` reads the memory bytes back as the octets. -/
def ipaddr_from_inaddr (addr : List Nat) : List Nat := addr

/-- `ipaddr_from_in6addr` of windows.rs: `Ipv6Addr::from` of the byte array. -/
def ipaddr_from_in6addr (addr : List Nat) : List Nat := addr

/-- `std::net::SocketAddrV4`: four address octets and a port. -/
structure SocketAddrV4 where
  ip : List Nat
  port : Nat
deriving DecidableEq

/-- `std::net::SocketAddrV6`: sixteen address octets, port, flow label and
scope id (`SocketAddrV6::new(ip, port, flowinfo, scope_id)` field order). -/
structure SocketAddrV6 where
  ip : List Nat
  port : Nat
  flowinfo : Nat
  scope_id : Nat
deriving DecidableEq

/-- `std::net::SocketAddr`. -/
inductive SocketAddr where
  | V4 (a : SocketAddrV4)
  | V6 (a : SocketAddrV6)
deriving DecidableEq

/-- A representable socket address: octet lists of the right length whose
entries are bytes, a 16-bit port, and 32-bit flow label and scope id. -/
def SocketAddr.Representable : SocketAddr → Prop
  | .V4 a => a.ip.length = 4 ∧ (∀ b ∈ a.ip, b < 256) ∧ a.port < 65536
  | .V6 a => a.ip.length = 16 ∧ (∀ b ∈ a.ip, b < 256) ∧ a.port < 65536
      ∧ a.flowinfo < 4294967296 ∧ a.scope_id < 4294967296

instance (x : SocketAddr) : Decidable x.Representable := by
  cases x <;> (unfold SocketAddr.Representable; infer_instance)

/-- The `SOCKADDR_IN` view of the native union, with the fields windows.rs
touches: family tag, port in network byte order, address bytes. -/
structure SOCKADDR_IN where
  sin_family : Nat
  sin_port : Nat
  sin_addr : List Nat
deriving DecidableEq

/-- The `SOCKADDR_IN6` view of the native union, with the fields windows.rs
touches. -/
structure SOCKADDR_IN6 where
  sin6_family : Nat
  sin6_port : Nat
  sin6_flowinfo : Nat
  sin6_addr : List Nat
  sin6_scope_id : Nat
deriving DecidableEq

/-- The `SOCKADDR_INET` union. The union is modelled with the overlapping
`Ipv4` and `Ipv6` views as separate fields plus the shared `si_family` tag;
this is adequate here because every function of windows.rs writes and reads
only the view selected by the tag it sets or inspects. -/
structure SOCKADDR_INET where
  si_family : Nat
  Ipv4 : SOCKADDR_IN
  Ipv6 : SOCKADDR_IN6
deriving DecidableEq

/-- `mem::zeroed()` for `SOCKADDR_IN`. -/
def SOCKADDR_IN.zeroed : SOCKADDR_IN :=
  { sin_family := 0, sin_port := 0, sin_addr := List.replicate 4 0 }

/-- `mem::zeroed()` for `SOCKADDR_IN6`. -/
def SOCKADDR_IN6.zeroed : SOCKADDR_IN6 :=
  { sin6_family := 0, sin6_port := 0, sin6_flowinfo := 0,
    sin6_addr := List.replicate 16 0, sin6_scope_id := 0 }

/-- `mem::zeroed()` for `SOCKADDR_INET`. -/
def SOCKADDR_INET.zeroed : SOCKADDR_INET :=
  { si_family := 0, Ipv4 := SOCKADDR_IN.zeroed, Ipv6 := SOCKADDR_IN6.zeroed }

/-- `inet_sockaddr_from_socketaddr` of windows.rs: start from zeroed memory,
set the union tag, then fill the view of the matching family; the port is
stored with `to_be`, the IPv6 flow label and scope id are carried through
unchanged. -/
def inet_sockaddr_from_socketaddr (addr : SocketAddr) : SOCKADDR_INET :=
  let sockaddr := SOCKADDR_INET.zeroed
  match addr with
  | .V4 v4_addr =>
    { sockaddr with
      si_family := AF_INET,
      Ipv4 :=
        { sin_family := AF_INET,
          sin_port := u16_to_be v4_addr.port,
          sin_addr := inaddr_from_ipaddr v4_addr.ip } }
  | .V6 v6_addr =>
    { sockaddr with
      si_family := AF_INET6,
      Ipv6 :=
        { sin6_family := AF_INET6,
          sin6_port := u16_to_be v6_addr.port,
          sin6_flowinfo := v6_addr.flowinfo,
          sin6_addr := in6addr_from_ipaddr v6_addr.ip,
          sin6_scope_id := v6_addr.scope_id } }

/-- `try_socketaddr_from_inet_sockaddr` of windows.rs: match the union tag
against `AF_INET` and `AF_INET6`, decode the matching view, and fail with
`Error::UnknownAddressFamily` carrying the tag otherwise. -/
def try_socketaddr_from_inet_sockaddr (addr : SOCKADDR_INET) :
    Except Error SocketAddr :=
  if addr.si_family = AF_INET then
    Except.ok (SocketAddr.V4
      { ip := ipaddr_from_inaddr addr.Ipv4.sin_addr,
        port := u16_from_be addr.Ipv4.sin_port })
  else if addr.si_family = AF_INET6 then
    Except.ok (SocketAddr.V6
      { ip := ipaddr_from_in6addr addr.Ipv6.sin6_addr,
        port := u16_from_be addr.Ipv6.sin6_port,
        flowinfo := addr.Ipv6.sin6_flowinfo,
        scope_id := addr.Ipv6.sin6_scope_id })
  else Except.error (Error.unknownAddressFamily addr.si_family)

/-! ### The interface-change notifier callback

`inner_callback` of windows.rs locks the registration's callback mutex with
`.lock().expect("NotifyIpInterfaceChange mutex poisoned")` and, on success,
invokes the registered closure. `Mutex::lock` returns `Err` exactly when the
mutex is poisoned, and `.expect` on that `Err` panics; a panic unwinding out
of an `extern "system"` callback aborts the process. The lock outcome is the
only input that matters, so the invocation is modelled as a function of the
poisoned flag. -/

/-- Outcome of one OS invocation of `inner_callback`: either the registered
closure is called, or the invocation panics in `.expect` (which, in an
`extern "system"` callback, terminates the process). -/
inductive CallbackOutcome where
  | delivered
  | panicked
deriving DecidableEq

/-- `inner_callback` of windows.rs as a function of whether the callback
mutex is poisoned. -/
def inner_callback (poisoned : Bool) : CallbackOutcome :=
  if poisoned then CallbackOutcome.panicked else CallbackOutcome.delivered

/-! ### The interface waiter

`wait_for_interfaces` registers the change-notification callback first
(propagating a registration error), then evaluates
`(!ipv4 || ip_interface_entry_exists(Ipv4)?) && (!ipv6 || ip_interface_entry_exists(Ipv6)?)`
with Rust short-circuit semantics, returning `Ok(())` at once when it is
true and otherwise awaiting the oneshot receiver (whose outcome is ignored
and followed by `Ok(())`). The OS is modelled by the registration result and
one `GetIpInterfaceEntry` result per family; the side effects the claims
speak about are recorded in an action trace. -/

/-- Observable actions of `wait_for_interfaces`, in the order performed. -/
inductive WfiAction where
  | register
  | queryExists (family : AddressFamily)
  | awaitEvent
deriving DecidableEq

/-- `ip_interface_entry_exists` of windows.rs: `Ok` means the entry exists,
`ERROR_NOT_FOUND` means it does not, any other error propagates. -/
def ip_interface_entry_exists (getEntryResult : Except Int Unit) : Except Int Bool :=
  match getEntryResult with
  | .ok _ => Except.ok true
  | .error code =>
    if code = ERROR_NOT_FOUND then Except.ok false else Except.error code

/-- The right conjunct `(!ipv6 || ip_interface_entry_exists(Ipv6)?)` of the
existence check in `wait_for_interfaces`, reached only when the left conjunct
is true: on `true` the function returns `Ok(())` immediately, on `false` it
awaits the notification event, and an entry-query error propagates. -/
def wfiCheckIpv6 (ipv6 : Bool) (entry6 : Except Int Unit) (trace : List WfiAction) :
    Except Int Unit × List WfiAction :=
  if ipv6 then
    match ip_interface_entry_exists entry6 with
    | .error e => (Except.error e, trace ++ [WfiAction.queryExists AddressFamily.Ipv6])
    | .ok true => (Except.ok (), trace ++ [WfiAction.queryExists AddressFamily.Ipv6])
    | .ok false =>
      (Except.ok (),
        trace ++ [WfiAction.queryExists AddressFamily.Ipv6, WfiAction.awaitEvent])
  else (Except.ok (), trace)

/-- `wait_for_interfaces` of windows.rs, over the OS oracles: the result of
registering the change notification and the per-family
`GetIpInterfaceEntry` results at query time, paired with the action trace. -/
def wait_for_interfaces (ipv4 ipv6 : Bool) (reg : Except Int Unit)
    (entry4 entry6 : Except Int Unit) : Except Int Unit × List WfiAction :=
  match reg with
  | .error e => (Except.error e, [WfiAction.register])
  | .ok _ =>
    if ipv4 then
      match ip_interface_entry_exists entry4 with
      | .error e =>
        (Except.error e, [WfiAction.register, WfiAction.queryExists AddressFamily.Ipv4])
      | .ok true =>
        wfiCheckIpv6 ipv6 entry6
          [WfiAction.register, WfiAction.queryExists AddressFamily.Ipv4]
      | .ok false =>
        (Except.ok (),
          [WfiAction.register, WfiAction.queryExists AddressFamily.Ipv4,
            WfiAction.awaitEvent])
    else wfiCheckIpv6 ipv6 entry6 [WfiAction.register]

/-! ### The address readiness checker

`wait_for_addresses` queries the unicast table once, filters it to the
target interface, fails with `NoUnicastAddress` when the filtered list is
empty, and otherwise runs a blocking worker: with `deadline = now + 5s`
fixed at entry, each round re-queries the DAD state of every candidate row
in order (`GetUnicastIpAddressEntry`), breaking to a 100ms sleep on the
first `Tentative` state, failing at once on a query error or on any state
that is neither `Tentative` nor `Preferred`, and succeeding when every row
is `Preferred`; when the deadline passes it fails with `DeviceReadyTimeout`.

Time is modelled in milliseconds; `extra n` is the nonnegative time round
`n` takes beyond the fixed sleep interval (query time and sleep overshoot).
The OS query results are an oracle per round and per row. -/

/-- The fields of `MIB_UNICASTIPADDRESS_ROW` that windows.rs reads:
`InterfaceLuid.Value` and the `DadState` found in the initial table query
(the worker overwrites the latter on every re-query, modelled by the query
oracle). -/
structure MIB_UNICASTIPADDRESS_ROW where
  luidValue : Nat
  dadState : Nat
deriving DecidableEq

/-- Result of one `GetUnicastIpAddressEntry` call: a failing status code, or
success with the row's refreshed DAD state. -/
inductive QueryResult where
  | osErr (code : Int)
  | state (dadState : Nat)
deriving DecidableEq

/-- The `From<NL_DAD_STATE> for DadStateError` impl of windows.rs: `Invalid`,
`Duplicate` and `Deprecated` map to their constructors and every other
constant is preserved in `Unknown`. -/
def DadStateError.fromNlDadState (state : Nat) : DadStateError :=
  if state = IpDadStateInvalid then DadStateError.invalid
  else if state = IpDadStateDuplicate then DadStateError.duplicate
  else if state = IpDadStateDeprecated then DadStateError.deprecated
  else DadStateError.unknown state

/-- Outcome of one polling round over the candidate rows. -/
inductive RoundResult where
  | ready
  | notReady
  | osError (code : Int)
  | dadError (e : DadStateError)
deriving DecidableEq

/-- One polling round (the `for row in &mut unicast_rows` loop body of
`wait_for_addresses`): query each row in order; a failing query aborts the
round with its status; a `Tentative` state breaks out with `ready = false`;
any other non-`Preferred` state fails with the `DadStateError` derived from
it; and a list of all-`Preferred` rows leaves `ready = true`. -/
def checkRound (query : MIB_UNICASTIPADDRESS_ROW → QueryResult) :
    List MIB_UNICASTIPADDRESS_ROW → RoundResult
  | [] => RoundResult.ready
  | row :: rest =>
    match query row with
    | .osErr code => RoundResult.osError code
    | .state s =>
      if s = IpDadStateTentative then RoundResult.notReady
      else if s ≠ IpDadStatePreferred then
        RoundResult.dadError (DadStateError.fromNlDadState s)
      else checkRound query rest

/-- The worker loop of `wait_for_addresses` (`while Instant::now() < deadline`):
`n` is the round index, `now` the current time in milliseconds. A not-ready
round sleeps `DAD_CHECK_INTERVAL_MS` (plus the round's `extra` time) and
retries; the deadline never moves. -/
def waitLoop (cand : List MIB_UNICASTIPADDRESS_ROW)
    (query : Nat → MIB_UNICASTIPADDRESS_ROW → QueryResult) (extra : Nat → Nat)
    (deadline n now : Nat) : Except Error Unit :=
  if _h : now < deadline then
    match checkRound (query n) cand with
    | RoundResult.ready => Except.ok ()
    | RoundResult.osError code => Except.error (Error.obtainUnicastAddress code)
    | RoundResult.dadError e => Except.error (Error.dadStateError e)
    | RoundResult.notReady =>
      waitLoop cand query extra deadline (n + 1) (now + DAD_CHECK_INTERVAL_MS + extra n)
  else Except.error Error.deviceReadyTimeout
termination_by deadline - now
decreasing_by simp only [DAD_CHECK_INTERVAL_MS]; omega

/-- The worker loop together with the trace of the candidate list each
executed round iterates over. -/
def waitLoopTrace (cand : List MIB_UNICASTIPADDRESS_ROW)
    (query : Nat → MIB_UNICASTIPADDRESS_ROW → QueryResult) (extra : Nat → Nat)
    (deadline n now : Nat) :
    Except Error Unit × List (List MIB_UNICASTIPADDRESS_ROW) :=
  if _h : now < deadline then
    match checkRound (query n) cand with
    | RoundResult.ready => (Except.ok (), [cand])
    | RoundResult.osError code =>
      (Except.error (Error.obtainUnicastAddress code), [cand])
    | RoundResult.dadError e => (Except.error (Error.dadStateError e), [cand])
    | RoundResult.notReady =>
      let r := waitLoopTrace cand query extra deadline (n + 1)
        (now + DAD_CHECK_INTERVAL_MS + extra n)
      (r.1, cand :: r.2)
  else (Except.error Error.deviceReadyTimeout, [])
termination_by deadline - now
decreasing_by simp only [DAD_CHECK_INTERVAL_MS]; omega

/-- `wait_for_addresses` of windows.rs: obtain the unicast table (an error
becomes `ObtainUnicastAddress`), filter it to the target interface, fail
with `NoUnicastAddress` when nothing remains, and otherwise run the worker
with the deadline fixed at entry as `start + DAD_CHECK_TIMEOUT_MS`. The
worker thread always sends its result on the oneshot channel, so the
receiver side is modelled as returning that result. -/
def wait_for_addresses (luidValue : Nat)
    (table : Except Int (List MIB_UNICASTIPADDRESS_ROW))
    (query : Nat → MIB_UNICASTIPADDRESS_ROW → QueryResult) (extra : Nat → Nat)
    (start : Nat) : Except Error Unit :=
  match table with
  | .error code => Except.error (Error.obtainUnicastAddress code)
  | .ok rows =>
    let unicast_rows := rows.filter (fun row => row.luidValue == luidValue)
    if unicast_rows.isEmpty then Except.error Error.noUnicastAddress
    else waitLoop unicast_rows query extra (start + DAD_CHECK_TIMEOUT_MS) 0 start

/-- `wait_for_addresses` together with the per-round candidate-list trace. -/
def wait_for_addresses_trace (luidValue : Nat)
    (table : Except Int (List MIB_UNICASTIPADDRESS_ROW))
    (query : Nat → MIB_UNICASTIPADDRESS_ROW → QueryResult) (extra : Nat → Nat)
    (start : Nat) :
    Except Error Unit × List (List MIB_UNICASTIPADDRESS_ROW) :=
  match table with
  | .error code => (Except.error (Error.obtainUnicastAddress code), [])
  | .ok rows =>
    let unicast_rows := rows.filter (fun row => row.luidValue == luidValue)
    if unicast_rows.isEmpty then (Except.error Error.noUnicastAddress, [])
    else waitLoopTrace unicast_rows query extra (start + DAD_CHECK_TIMEOUT_MS) 0 start

end TalpidWindows

namespace TalpidOfflineLinux

/-- The `TunnelCommand` event variant the monitor emits downstream. -/
inductive TunnelCommand where
  | IsOffline (isOffline : Bool)
deriving DecidableEq

/-- `public_ip_unreachable` of offline/linux.rs: ask the route manager for a
destination route to the reference address; offline means no route was
found. Route-manager errors (their payload is irrelevant here, modelled as
`Unit`) propagate; the route payload is likewise modelled as `Unit`. -/
def public_ip_unreachable (routeQuery : Except Unit (Option Unit)) :
    Except Unit Bool :=
  match routeQuery with
  | .error e => Except.error e
  | .ok route => Except.ok route.isNone

/-- `MonitorHandle::is_offline` of offline/linux.rs: the same reachability
computation as the loop, run on demand; on error it logs and returns `false`
(online). The handle holds only the route-manager reference and no offline
state, so this query can read or write no stored state. -/
def is_offline (routeQuery : Except Unit (Option Unit)) : Bool :=
  match public_ip_unreachable routeQuery with
  | .ok offline => offline
  | .error _ => false

/-- The background loop body's reachability computation:
`public_ip_unreachable(..).unwrap_or_else(|err| { log; false })`. -/
def loop_new_offline_state (routeQuery : Except Unit (Option Unit)) : Bool :=
  match public_ip_unreachable routeQuery with
  | .ok offline => offline
  | .error _ => false

/-- One iteration of the monitor loop body with a live sender: compute the
new offline state; when it differs from the stored `is_offline`, store it
and emit `IsOffline` downstream; otherwise emit nothing. Returns the stored
state after the iteration and the emitted event, if any. -/
def monitorStep (isOffline : Bool) (routeQuery : Except Unit (Option Unit)) :
    Bool × Option TunnelCommand :=
  let new_offline_state := loop_new_offline_state routeQuery
  if new_offline_state ≠ isOffline then
    (new_offline_state, some (TunnelCommand.IsOffline new_offline_state))
  else (isOffline, none)

/-- The monitor loop over a sequence of routing-change events, each carrying
the reachability query result the loop computes when handling it; the list
records, per event, the downstream emission (if any). -/
def monitorTrace (isOffline : Bool) :
    List (Except Unit (Option Unit)) → List (Option TunnelCommand)
  | [] => []
  | q :: qs =>
    let step := monitorStep isOffline q
    step.2 :: monitorTrace step.1 qs

/-- The downstream events the loop actually sends. -/
def monitorEvents (isOffline : Bool) (qs : List (Except Unit (Option Unit))) :
    List TunnelCommand :=
  (monitorTrace isOffline qs).filterMap id

/-- `spawn_monitor` of offline/linux.rs: the initial reachability computation
and the `change_listener()` subscription both propagate their errors to the
caller (construction may fail); otherwise the background loop runs from the
initial state. The value returned is the loop's emission trace. -/
def spawn_monitor (initQuery : Except Unit (Option Unit))
    (listener : Except Unit Unit) (qs : List (Except Unit (Option Unit))) :
    Except Unit (List (Option TunnelCommand)) :=
  match public_ip_unreachable initQuery with
  | .error e => Except.error e
  | .ok initialOffline =>
    match listener with
    | .error e => Except.error e
    | .ok _ => Except.ok (monitorTrace initialOffline qs)

end TalpidOfflineLinux

namespace TalpidWindows

/-- Byte swap of a value given by its two bytes. -/
theorem swap16_of_bytes (lo hi : Nat) (hl : lo < 256) (hh : hi < 256) :
    swap16 (lo * 256 + hi) = hi * 256 + lo := by
  unfold swap16
  have ha : (lo * 256 + hi) % 256 = hi := by omega
  have hb : (lo * 256 + hi) / 256 = lo := by omega
  rw [ha, hb, Nat.mod_eq_of_lt hl]

/-- Swapping the two bytes of a 16-bit value twice gives the value back. -/
theorem swap16_swap16 (x : Nat) (h : x < 65536) : swap16 (swap16 x) = x := by
  have hl : x % 256 < 256 := by omega
  have hh : x / 256 < 256 := by omega
  have h0 : x = x / 256 * 256 + x % 256 := by omega
  conv_lhs => rw [h0]
  rw [swap16_of_bytes _ _ hh hl, swap16_of_bytes _ _ hl hh]
  omega

end TalpidWindows

namespace TalpidWindows

/-! ### Helper lemmas about the polling worker -/

/-- A block of candidates whose queries all come back `Preferred` passes
through a round without affecting its outcome. -/
theorem checkRound_preferred_front (query : MIB_UNICASTIPADDRESS_ROW → QueryResult)
    (front l : List MIB_UNICASTIPADDRESS_ROW)
    (hfront : ∀ r ∈ front, query r = QueryResult.state IpDadStatePreferred) :
    checkRound query (front ++ l) = checkRound query l := by
  induction front with
  | nil => rfl
  | cons r rs ih =>
    have hr : query r = QueryResult.state IpDadStatePreferred :=
      hfront r (List.mem_cons_self r rs)
    have hrest : ∀ x ∈ rs, query x = QueryResult.state IpDadStatePreferred :=
      fun x hx => hfront x (List.mem_cons_of_mem r hx)
    rw [List.cons_append]
    simp only [checkRound, hr]
    rw [if_neg (by decide : ¬ IpDadStatePreferred = IpDadStateTentative),
      if_neg (by simp : ¬ IpDadStatePreferred ≠ IpDadStatePreferred)]
    exact ih hrest

/-- Observing a bad DAD state (neither `Tentative` nor `Preferred`) after a
run of `Preferred` candidates makes the round fail with the `DadStateError`
derived from that state. -/
theorem checkRound_dad_error (query : MIB_UNICASTIPADDRESS_ROW → QueryResult)
    (front rest : List MIB_UNICASTIPADDRESS_ROW) (row : MIB_UNICASTIPADDRESS_ROW)
    (s : Nat)
    (hfront : ∀ r ∈ front, query r = QueryResult.state IpDadStatePreferred)
    (hrow : query row = QueryResult.state s)
    (ht : s ≠ IpDadStateTentative) (hp : s ≠ IpDadStatePreferred) :
    checkRound query (front ++ row :: rest)
      = RoundResult.dadError (DadStateError.fromNlDadState s) := by
  rw [checkRound_preferred_front query front _ hfront]
  simp only [checkRound, hrow]
  rw [if_neg ht, if_pos hp]

/-- When every round comes back not-ready, the worker loop runs to its
deadline and fails with `DeviceReadyTimeout` (stated with fuel `k` bounding
the remaining time for the induction). -/
theorem waitLoop_timeout_of_all_notReady (cand : List MIB_UNICASTIPADDRESS_ROW)
    (query : Nat → MIB_UNICASTIPADDRESS_ROW → QueryResult) (extra : Nat → Nat)
    (deadline : Nat)
    (hall : ∀ m, checkRound (query m) cand = RoundResult.notReady) :
    ∀ k n now, deadline - now ≤ k →
      waitLoop cand query extra deadline n now
        = Except.error Error.deviceReadyTimeout := by
  intro k
  induction k with
  | zero =>
    intro n now hk
    rw [waitLoop, dif_neg (by omega : ¬ now < deadline)]
  | succ k ih =>
    intro n now hk
    by_cases hlt : now < deadline
    · rw [waitLoop, dif_pos hlt, hall n]
      exact ih (n + 1) (now + DAD_CHECK_INTERVAL_MS + extra n)
        (by simp only [DAD_CHECK_INTERVAL_MS]; omega)
    · rw [waitLoop, dif_neg hlt]

/-- The number of rounds the worker executes is bounded: each retry consumes
at least the poll interval of the fixed time budget. -/
theorem waitLoopTrace_length_bound (cand : List MIB_UNICASTIPADDRESS_ROW)
    (query : Nat → MIB_UNICASTIPADDRESS_ROW → QueryResult) (extra : Nat → Nat)
    (deadline : Nat) :
    ∀ k n now, deadline - now ≤ k →
      DAD_CHECK_INTERVAL_MS
          * (waitLoopTrace cand query extra deadline n now).2.length
        ≤ (deadline - now) + (DAD_CHECK_INTERVAL_MS - 1) := by
  intro k
  induction k with
  | zero =>
    intro n now hk
    rw [waitLoopTrace, dif_neg (by omega : ¬ now < deadline)]
    simp
  | succ k ih =>
    intro n now hk
    by_cases hlt : now < deadline
    · rw [waitLoopTrace, dif_pos hlt]
      cases hcr : checkRound (query n) cand with
      | ready => simp only [List.length_cons, List.length_nil, DAD_CHECK_INTERVAL_MS]; omega
      | osError code => simp only [List.length_cons, List.length_nil, DAD_CHECK_INTERVAL_MS]; omega
      | dadError e => simp only [List.length_cons, List.length_nil, DAD_CHECK_INTERVAL_MS]; omega
      | notReady =>
        have hrec := ih (n + 1) (now + DAD_CHECK_INTERVAL_MS + extra n)
          (by simp only [DAD_CHECK_INTERVAL_MS]; omega)
        simp only [List.length_cons, DAD_CHECK_INTERVAL_MS] at hrec ⊢
        omega
    · rw [waitLoopTrace, dif_neg hlt]
      simp

/-- The traced worker loop computes the same result as the worker loop. -/
theorem waitLoopTrace_fst (cand : List MIB_UNICASTIPADDRESS_ROW)
    (query : Nat → MIB_UNICASTIPADDRESS_ROW → QueryResult) (extra : Nat → Nat)
    (deadline : Nat) :
    ∀ k n now, deadline - now ≤ k →
      (waitLoopTrace cand query extra deadline n now).1
        = waitLoop cand query extra deadline n now := by
  intro k
  induction k with
  | zero =>
    intro n now hk
    have hge : ¬ now < deadline := by omega
    rw [waitLoopTrace, waitLoop, dif_neg hge, dif_neg hge]
  | succ k ih =>
    intro n now hk
    by_cases hlt : now < deadline
    · rw [waitLoopTrace, waitLoop, dif_pos hlt, dif_pos hlt]
      cases hcr : checkRound (query n) cand with
      | ready => rfl
      | osError code => rfl
      | dadError e => rfl
      | notReady =>
        exact ih (n + 1) (now + DAD_CHECK_INTERVAL_MS + extra n)
          (by simp only [DAD_CHECK_INTERVAL_MS]; omega)
    · rw [waitLoopTrace, waitLoop, dif_neg hlt, dif_neg hlt]

/-- Every candidate list an executed round of the worker iterates over is
the one the loop was started with. -/
theorem waitLoopTrace_mem_cand (cand : List MIB_UNICASTIPADDRESS_ROW)
    (query : Nat → MIB_UNICASTIPADDRESS_ROW → QueryResult) (extra : Nat → Nat)
    (deadline : Nat) :
    ∀ k n now, deadline - now ≤ k →
      ∀ l ∈ (waitLoopTrace cand query extra deadline n now).2, l = cand := by
  intro k
  induction k with
  | zero =>
    intro n now hk l hl
    rw [waitLoopTrace, dif_neg (by omega : ¬ now < deadline)] at hl
    simp at hl
  | succ k ih =>
    intro n now hk l hl
    by_cases hlt : now < deadline
    · rw [waitLoopTrace, dif_pos hlt] at hl
      cases hcr : checkRound (query n) cand with
      | ready => rw [hcr] at hl; simp at hl; exact hl
      | osError code => rw [hcr] at hl; simp at hl; exact hl
      | dadError e => rw [hcr] at hl; simp at hl; exact hl
      | notReady =>
        rw [hcr] at hl
        simp only [List.mem_cons] at hl
        rcases hl with rfl | hl
        · rfl
        · exact ih (n + 1) (now + DAD_CHECK_INTERVAL_MS + extra n)
            (by simp only [DAD_CHECK_INTERVAL_MS]; omega) l hl
    · rw [waitLoopTrace, dif_neg hlt] at hl
      simp at hl

/-- The first action of `wfiCheckIpv6` on a nonempty incoming trace is the
trace's first action. -/
theorem wfiCheckIpv6_head (ipv6 : Bool) (entry6 : Except Int Unit)
    (a : WfiAction) (tr : List WfiAction) :
    ((wfiCheckIpv6 ipv6 entry6 (a :: tr)).2).head? = some a := by
  unfold wfiCheckIpv6
  cases ipv6 with
  | false => simp
  | true =>
    cases hq : ip_interface_entry_exists entry6 with
    | error e2 => simp [hq]
    | ok b => cases b <;> simp [hq]

end TalpidWindows

/-! ### The claims -/

section Claims

open TalpidWindows TalpidOfflineLinux

/-- C1: whenever the polling worker of `wait_for_addresses`, in a round it
executes before the deadline, observes a candidate address whose DAD state
is Duplicate, Deprecated, Invalid or an unknown code (observation meaning
the query reaches that candidate: the candidates queried before it in the
round all came back Preferred), the round resolves to the `DadStateError`
derived from that state, the worker fails immediately in that round with
that error, and it performs no further polling rounds (the round trace stops
there, whatever later rounds would have returned). -/
theorem c1_dad_state_immediate_failure
    (cand front rest : List MIB_UNICASTIPADDRESS_ROW)
    (row : MIB_UNICASTIPADDRESS_ROW)
    (query : Nat → MIB_UNICASTIPADDRESS_ROW → QueryResult) (extra : Nat → Nat)
    (deadline n now s : Nat)
    (hcand : cand = front ++ row :: rest)
    (hfront : ∀ r ∈ front, query n r = QueryResult.state IpDadStatePreferred)
    (hrow : query n row = QueryResult.state s)
    (ht : s ≠ IpDadStateTentative) (hp : s ≠ IpDadStatePreferred)
    (hlt : now < deadline) :
    checkRound (query n) cand = RoundResult.dadError (DadStateError.fromNlDadState s)
    ∧ waitLoop cand query extra deadline n now
        = Except.error (Error.dadStateError (DadStateError.fromNlDadState s))
    ∧ (waitLoopTrace cand query extra deadline n now).2 = [cand] := by
  subst hcand
  have hcr := checkRound_dad_error (query n) front rest row s hfront hrow ht hp
  refine ⟨hcr, ?_, ?_⟩
  · rw [waitLoop, dif_pos hlt, hcr]
  · rw [waitLoopTrace, dif_pos hlt, hcr]

/-- C1 witness: a single candidate whose query returns the Duplicate state
in round 0 makes the worker fail at once with the duplicate-address error. -/
theorem c1_witness :
    checkRound (fun _ => QueryResult.state 2) [{ luidValue := 1, dadState := 0 }]
      = RoundResult.dadError (DadStateError.fromNlDadState 2)
    ∧ waitLoop [{ luidValue := 1, dadState := 0 }] (fun _ _ => QueryResult.state 2)
        (fun _ => 0) 5000 0 0
      = Except.error (Error.dadStateError (DadStateError.fromNlDadState 2))
    ∧ (waitLoopTrace [{ luidValue := 1, dadState := 0 }]
        (fun _ _ => QueryResult.state 2) (fun _ => 0) 5000 0 0).2
      = [[{ luidValue := 1, dadState := 0 }]] :=
  c1_dad_state_immediate_failure [{ luidValue := 1, dadState := 0 }] [] []
    { luidValue := 1, dadState := 0 } (fun _ _ => QueryResult.state 2) (fun _ => 0)
    5000 0 0 2 rfl (by intro r hr; exact absurd hr (List.not_mem_nil r)) rfl
    (by decide) (by decide) (by decide)

/-- C2: decoding the encoding of any representable socket address of either
family gives the address back: `try_socketaddr_from_inet_sockaddr` after
`inet_sockaddr_from_socketaddr` is the identity, for IPv4 and for IPv6
including nonzero flow label and scope id. -/
theorem c2_codec_roundtrip (x : SocketAddr) (hx : x.Representable) :
    try_socketaddr_from_inet_sockaddr (inet_sockaddr_from_socketaddr x)
      = Except.ok x := by
  cases x with
  | V4 a =>
    obtain ⟨ip, port⟩ := a
    simp only [SocketAddr.Representable] at hx
    simp [inet_sockaddr_from_socketaddr, try_socketaddr_from_inet_sockaddr,
      inaddr_from_ipaddr, ipaddr_from_inaddr, u16_to_be, u16_from_be,
      AF_INET, AF_INET6, swap16_swap16 port hx.2.2]
  | V6 a =>
    obtain ⟨ip, port, flowinfo, scope_id⟩ := a
    simp only [SocketAddr.Representable] at hx
    simp [inet_sockaddr_from_socketaddr, try_socketaddr_from_inet_sockaddr,
      in6addr_from_ipaddr, ipaddr_from_in6addr, u16_to_be, u16_from_be,
      AF_INET, AF_INET6, swap16_swap16 port hx.2.2.1]

/-- C2 witness: the round trip at a concrete IPv4 address and at a concrete
IPv6 address with nonzero flow label and scope id. -/
theorem c2_witness :
    (SocketAddr.V4 { ip := [1, 2, 3, 4], port := 1234 }).Representable
    ∧ (SocketAddr.V6
        { ip := [0, 1, 0, 2, 0, 3, 0, 4, 0, 5, 0, 6, 0, 7, 0, 8], port := 1234,
          flowinfo := 10, scope_id := 11 }).Representable
    ∧ try_socketaddr_from_inet_sockaddr (inet_sockaddr_from_socketaddr
        (SocketAddr.V4 { ip := [1, 2, 3, 4], port := 1234 }))
      = Except.ok (SocketAddr.V4 { ip := [1, 2, 3, 4], port := 1234 })
    ∧ try_socketaddr_from_inet_sockaddr (inet_sockaddr_from_socketaddr
        (SocketAddr.V6
          { ip := [0, 1, 0, 2, 0, 3, 0, 4, 0, 5, 0, 6, 0, 7, 0, 8], port := 1234,
            flowinfo := 10, scope_id := 11 }))
      = Except.ok (SocketAddr.V6
          { ip := [0, 1, 0, 2, 0, 3, 0, 4, 0, 5, 0, 6, 0, 7, 0, 8], port := 1234,
            flowinfo := 10, scope_id := 11 }) :=
  ⟨by decide, by decide,
    c2_codec_roundtrip (SocketAddr.V4 { ip := [1, 2, 3, 4], port := 1234 }) (by decide),
    c2_codec_roundtrip (SocketAddr.V6
      { ip := [0, 1, 0, 2, 0, 3, 0, 4, 0, 5, 0, 6, 0, 7, 0, 8], port := 1234,
        flowinfo := 10, scope_id := 11 }) (by decide)⟩

/-- C3: a loop iteration emits a downstream event exactly when the newly
computed offline state differs from the stored state (none when unchanged),
the stored state after an iteration is always the newly computed state, the
loop processes the event sequence step by step, and the reachability
sequence [online, online, offline, offline, online] — the first computation
being the one at spawn — yields exactly the two transition events. -/
theorem c3_monitor_dedup (st : Bool) (q : Except Unit (Option Unit))
    (qs : List (Except Unit (Option Unit))) :
    ((monitorStep st q).2 = some (TunnelCommand.IsOffline (loop_new_offline_state q))
        ↔ loop_new_offline_state q ≠ st)
    ∧ ((monitorStep st q).2 = none ↔ loop_new_offline_state q = st)
    ∧ (monitorStep st q).1 = loop_new_offline_state q
    ∧ monitorTrace st (q :: qs)
        = (monitorStep st q).2 :: monitorTrace (monitorStep st q).1 qs
    ∧ monitorEvents false
        [Except.ok (some ()), Except.ok none, Except.ok none, Except.ok (some ())]
      = [TunnelCommand.IsOffline true, TunnelCommand.IsOffline false]
    ∧ spawn_monitor (Except.ok (some ())) (Except.ok ())
        [Except.ok (some ()), Except.ok none, Except.ok none, Except.ok (some ())]
      = Except.ok [none, some (TunnelCommand.IsOffline true), none,
          some (TunnelCommand.IsOffline false)] := by
  refine ⟨?_, ?_, ?_, rfl, rfl, rfl⟩
  · by_cases h : loop_new_offline_state q = st <;> simp [monitorStep, h]
  · by_cases h : loop_new_offline_state q = st <;> simp [monitorStep, h]
  · by_cases h : loop_new_offline_state q = st <;> simp [monitorStep, h]

/-- C3 witness: from stored state online, an offline computation emits the
offline transition event. -/
theorem c3_witness :
    (monitorStep false (Except.ok none)).2
      = some (TunnelCommand.IsOffline (loop_new_offline_state (Except.ok none))) :=
  (c3_monitor_dedup false (Except.ok none) []).1.mpr (by decide)

/-- C4 counterexample: with the stored state offline (`true`) and an
erroring reachability query, the background loop body does mutate the
stored state — it becomes `false` and an event is emitted — so the claim
that no stored state is mutated in either path fails at this input. -/
theorem c4_counterexample :
    (monitorStep true (Except.error ())).1 ≠ true
    ∧ monitorStep true (Except.error ())
        = (false, some (TunnelCommand.IsOffline false)) := by
  exact ⟨by decide, by decide⟩

/-- C4 (amended): whenever the reachability query errors, the loop computes
the new state as `false` (online) and applies the normal dedup update — the
stored state becomes `false`, with an `IsOffline(false)` event exactly when
it was previously `true` — and `is_offline()` returns `false` without
propagating any error to its caller; the `is_offline` path touches no
stored state (the handle holds none). -/
theorem c4_error_bias (st : Bool) (e : Unit) :
    loop_new_offline_state (Except.error e) = false
    ∧ is_offline (Except.error e) = false
    ∧ monitorStep st (Except.error e)
        = (false, if st then some (TunnelCommand.IsOffline false) else none) := by
  cases e
  cases st <;> exact ⟨rfl, rfl, rfl⟩

/-- C5: `wait_for_interfaces` registers the change-notification subscription
before any current-state query (the first recorded action is always the
registration), and when every requested family already has an interface
entry at query time it resolves `Ok(())` immediately without awaiting any
notification event. -/
theorem c5_subscribe_first_fast_path (ipv4 ipv6 : Bool)
    (reg entry4 entry6 : Except Int Unit) :
    ((wait_for_interfaces ipv4 ipv6 reg entry4 entry6).2).head?
      = some WfiAction.register
    ∧ (reg = Except.ok () →
        (ipv4 = true → entry4 = Except.ok ()) →
        (ipv6 = true → entry6 = Except.ok ()) →
        (wait_for_interfaces ipv4 ipv6 reg entry4 entry6).1 = Except.ok ()
        ∧ WfiAction.awaitEvent ∉ (wait_for_interfaces ipv4 ipv6 reg entry4 entry6).2) := by
  constructor
  · cases reg with
    | error e => rfl
    | ok u =>
      cases u
      cases ipv4 with
      | false => exact wfiCheckIpv6_head ipv6 entry6 WfiAction.register []
      | true =>
        cases hq : ip_interface_entry_exists entry4 with
        | error e2 => simp [wait_for_interfaces, hq]
        | ok b =>
          cases b with
          | false => simp [wait_for_interfaces, hq]
          | true =>
            have h := wfiCheckIpv6_head ipv6 entry6 WfiAction.register
              [WfiAction.queryExists AddressFamily.Ipv4]
            simpa [wait_for_interfaces, hq] using h
  · intro hreg h4 h6
    subst hreg
    cases ipv4 with
    | true =>
      have e4 := h4 rfl
      subst e4
      cases ipv6 with
      | true =>
        have e6 := h6 rfl
        subst e6
        exact ⟨rfl, by decide⟩
      | false =>
        exact ⟨rfl, (by decide : WfiAction.awaitEvent ∉
          [WfiAction.register, WfiAction.queryExists AddressFamily.Ipv4])⟩
    | false =>
      cases ipv6 with
      | true =>
        have e6 := h6 rfl
        subst e6
        exact ⟨rfl, (by decide : WfiAction.awaitEvent ∉
          [WfiAction.register, WfiAction.queryExists AddressFamily.Ipv6])⟩
      | false =>
        exact ⟨rfl, (by decide : WfiAction.awaitEvent ∉ [WfiAction.register])⟩

/-- C5 witness: with both families requested and both entries already
present, the call resolves `Ok(())` with no await in its action trace. -/
theorem c5_witness :
    (wait_for_interfaces true true (Except.ok ()) (Except.ok ()) (Except.ok ())).1
      = Except.ok ()
    ∧ WfiAction.awaitEvent
        ∉ (wait_for_interfaces true true (Except.ok ()) (Except.ok ()) (Except.ok ())).2 :=
  (c5_subscribe_first_fast_path true true (Except.ok ()) (Except.ok ()) (Except.ok ())).2
    rfl (fun _ => rfl) (fun _ => rfl)

/-- C6: decoding a native socket address fails with `UnknownAddressFamily`
carrying exactly the tag iff the tag is neither `AF_INET` nor `AF_INET6`,
and succeeds for the two supported tags; likewise for the raw family-tag
conversion `try_from_af_family`; both are total functions. -/
theorem c6_unknown_family_exact (a : SOCKADDR_INET) (family : Nat) :
    (try_socketaddr_from_inet_sockaddr a
        = Except.error (Error.unknownAddressFamily a.si_family)
      ↔ (a.si_family ≠ AF_INET ∧ a.si_family ≠ AF_INET6))
    ∧ ((a.si_family = AF_INET ∨ a.si_family = AF_INET6) →
        ∃ s, try_socketaddr_from_inet_sockaddr a = Except.ok s)
    ∧ (AddressFamily.try_from_af_family family
        = Except.error (Error.unknownAddressFamily family)
      ↔ (family ≠ AF_INET ∧ family ≠ AF_INET6))
    ∧ ((family = AF_INET ∨ family = AF_INET6) →
        ∃ f, AddressFamily.try_from_af_family family = Except.ok f) := by
  refine ⟨?_, ?_, ?_, ?_⟩
  · by_cases h4 : a.si_family = AF_INET
    · simp [try_socketaddr_from_inet_sockaddr, h4]
    · by_cases h6 : a.si_family = AF_INET6
      · simp [try_socketaddr_from_inet_sockaddr, h4, h6, AF_INET, AF_INET6]
      · simp [try_socketaddr_from_inet_sockaddr, h4, h6]
  · intro hor
    by_cases h4 : a.si_family = AF_INET
    · exact ⟨SocketAddr.V4
        { ip := ipaddr_from_inaddr a.Ipv4.sin_addr,
          port := u16_from_be a.Ipv4.sin_port },
        by simp [try_socketaddr_from_inet_sockaddr, h4]⟩
    · have h6 : a.si_family = AF_INET6 := hor.resolve_left h4
      exact ⟨SocketAddr.V6
        { ip := ipaddr_from_in6addr a.Ipv6.sin6_addr,
          port := u16_from_be a.Ipv6.sin6_port,
          flowinfo := a.Ipv6.sin6_flowinfo,
          scope_id := a.Ipv6.sin6_scope_id },
        by simp [try_socketaddr_from_inet_sockaddr, h4, h6, AF_INET, AF_INET6]⟩
  · by_cases h4 : family = AF_INET
    · simp [AddressFamily.try_from_af_family, h4]
    · by_cases h6 : family = AF_INET6
      · simp [AddressFamily.try_from_af_family, h4, h6, AF_INET, AF_INET6]
      · simp [AddressFamily.try_from_af_family, h4, h6]
  · intro hor
    by_cases h4 : family = AF_INET
    · exact ⟨AddressFamily.Ipv4, by simp [AddressFamily.try_from_af_family, h4]⟩
    · have h6 : family = AF_INET6 := hor.resolve_left h4
      exact ⟨AddressFamily.Ipv6,
        by simp [AddressFamily.try_from_af_family, h4, h6, AF_INET, AF_INET6]⟩

/-- C6 witness: the tag 99 decodes to `UnknownAddressFamily 99`, and the
supported tag `AF_INET6` converts successfully. -/
theorem c6_witness :
    try_socketaddr_from_inet_sockaddr
        { si_family := 99, Ipv4 := SOCKADDR_IN.zeroed, Ipv6 := SOCKADDR_IN6.zeroed }
      = Except.error (Error.unknownAddressFamily 99)
    ∧ (∃ f, AddressFamily.try_from_af_family AF_INET6 = Except.ok f) :=
  ⟨(c6_unknown_family_exact
      { si_family := 99, Ipv4 := SOCKADDR_IN.zeroed, Ipv6 := SOCKADDR_IN6.zeroed }
      0).1.mpr (by decide),
    (c6_unknown_family_exact
      { si_family := 99, Ipv4 := SOCKADDR_IN.zeroed, Ipv6 := SOCKADDR_IN6.zeroed }
      AF_INET6).2.2.2 (Or.inr rfl)⟩

/-- C7: the polling worker always terminates, with the deadline fixed at
entry as `start + DAD_CHECK_TIMEOUT_MS`: when every round is not-ready the
result is `DeviceReadyTimeout`; the number of executed rounds is bounded by
the time budget divided by the poll interval; a not-ready round before the
deadline retries exactly one poll interval (plus that round's own running
time) later; and past the deadline the worker fails with
`DeviceReadyTimeout`. -/
theorem c7_worker_terminates (cand : List MIB_UNICASTIPADDRESS_ROW)
    (query : Nat → MIB_UNICASTIPADDRESS_ROW → QueryResult) (extra : Nat → Nat)
    (start : Nat) :
    ((∀ m, checkRound (query m) cand = RoundResult.notReady) →
      waitLoop cand query extra (start + DAD_CHECK_TIMEOUT_MS) 0 start
        = Except.error Error.deviceReadyTimeout)
    ∧ DAD_CHECK_INTERVAL_MS
        * (waitLoopTrace cand query extra (start + DAD_CHECK_TIMEOUT_MS) 0 start).2.length
      ≤ DAD_CHECK_TIMEOUT_MS + (DAD_CHECK_INTERVAL_MS - 1)
    ∧ (∀ n now, now < start + DAD_CHECK_TIMEOUT_MS →
        checkRound (query n) cand = RoundResult.notReady →
        waitLoop cand query extra (start + DAD_CHECK_TIMEOUT_MS) n now
          = waitLoop cand query extra (start + DAD_CHECK_TIMEOUT_MS) (n + 1)
              (now + DAD_CHECK_INTERVAL_MS + extra n))
    ∧ (∀ n now, ¬ now < start + DAD_CHECK_TIMEOUT_MS →
        waitLoop cand query extra (start + DAD_CHECK_TIMEOUT_MS) n now
          = Except.error Error.deviceReadyTimeout) := by
  refine ⟨?_, ?_, ?_, ?_⟩
  · intro hall
    exact waitLoop_timeout_of_all_notReady cand query extra _ hall
      (start + DAD_CHECK_TIMEOUT_MS - start) 0 start le_rfl
  · have h := waitLoopTrace_length_bound cand query extra (start + DAD_CHECK_TIMEOUT_MS)
      (start + DAD_CHECK_TIMEOUT_MS - start) 0 start le_rfl
    simp only [DAD_CHECK_TIMEOUT_MS, DAD_CHECK_INTERVAL_MS] at h ⊢
    omega
  · intro n now hlt hcr
    rw [waitLoop, dif_pos hlt, hcr]
  · intro n now hge
    rw [waitLoop, dif_neg hge]

/-- C7 witness: a single candidate that stays Tentative in every round makes
the worker time out with `DeviceReadyTimeout`. -/
theorem c7_witness :
    waitLoop [{ luidValue := 1, dadState := 1 }]
        (fun _ _ => QueryResult.state IpDadStateTentative) (fun _ => 0)
        (0 + DAD_CHECK_TIMEOUT_MS) 0 0
      = Except.error Error.deviceReadyTimeout :=
  (c7_worker_terminates [{ luidValue := 1, dadState := 1 }]
      (fun _ _ => QueryResult.state IpDadStateTentative) (fun _ => 0) 0).1
    (fun _ => rfl)

/-- C8: when the unicast table filtered to the target interface is empty,
`wait_for_addresses` fails with `NoUnicastAddress` whatever the polling
oracle would have answered, and its round trace is empty: no polling round
is attempted. -/
theorem c8_no_unicast_address (luidValue : Nat)
    (rows : List MIB_UNICASTIPADDRESS_ROW)
    (query : Nat → MIB_UNICASTIPADDRESS_ROW → QueryResult) (extra : Nat → Nat)
    (start : Nat)
    (hempty : rows.filter (fun row => row.luidValue == luidValue) = []) :
    wait_for_addresses luidValue (Except.ok rows) query extra start
      = Except.error Error.noUnicastAddress
    ∧ (wait_for_addresses_trace luidValue (Except.ok rows) query extra start).2 = [] := by
  constructor
  · simp [wait_for_addresses, hempty]
  · simp [wait_for_addresses_trace, hempty]

/-- C8 witness: a table holding only a row of another interface makes the
call fail with `NoUnicastAddress` and an empty round trace. -/
theorem c8_witness :
    wait_for_addresses 9 (Except.ok [{ luidValue := 3, dadState := 4 }])
        (fun _ _ => QueryResult.state 4) (fun _ => 0) 0
      = Except.error Error.noUnicastAddress
    ∧ (wait_for_addresses_trace 9 (Except.ok [{ luidValue := 3, dadState := 4 }])
        (fun _ _ => QueryResult.state 4) (fun _ => 0) 0).2 = [] :=
  c8_no_unicast_address 9 [{ luidValue := 3, dadState := 4 }]
    (fun _ _ => QueryResult.state 4) (fun _ => 0) 0 (by decide)

/-- C9 counterexample: with the callback mutex poisoned, the invocation does
not deliver, but it panics (the `.expect` call), which in the
`extern "system"` callback terminates the process — refuting the claim that
the degradation does not crash the process. -/
theorem c9_counterexample :
    inner_callback true = CallbackOutcome.panicked
    ∧ CallbackOutcome.panicked ≠ CallbackOutcome.delivered :=
  ⟨rfl, by decide⟩

/-- C9 (amended): once the callback mutex is poisoned, no OS invocation ever
delivers a call to the registered closure — the invocation instead panics in
`.expect` ("NotifyIpInterfaceChange mutex poisoned"), which aborts the
process rather than degrading without a crash. -/
theorem c9_poisoned_no_delivery (poisoned : Bool) :
    (inner_callback poisoned = CallbackOutcome.delivered ↔ poisoned = false)
    ∧ inner_callback true = CallbackOutcome.panicked := by
  cases poisoned <;> exact ⟨by decide, rfl⟩

/-- C10: the candidate set checked by every executed polling round of
`wait_for_addresses` is exactly the single initial table query filtered to
the interface — every recorded round list equals that filter result, so no
candidate is ever added or dropped while the call runs — and the traced
run computes the same result as the plain one. -/
theorem c10_candidate_set_invariant (luidValue : Nat)
    (rows : List MIB_UNICASTIPADDRESS_ROW)
    (query : Nat → MIB_UNICASTIPADDRESS_ROW → QueryResult) (extra : Nat → Nat)
    (start : Nat) :
    (wait_for_addresses_trace luidValue (Except.ok rows) query extra start).1
      = wait_for_addresses luidValue (Except.ok rows) query extra start
    ∧ ((wait_for_addresses_trace luidValue (Except.ok rows) query extra start).2.all
        (fun l => decide
          (l = rows.filter (fun row => row.luidValue == luidValue)))) = true := by
  constructor
  · simp only [wait_for_addresses, wait_for_addresses_trace]
    by_cases hE : ((rows.filter (fun row => row.luidValue == luidValue)).isEmpty) = true
    · simp [hE]
    · simp only [hE, if_false]
      exact waitLoopTrace_fst _ _ _ _ (start + DAD_CHECK_TIMEOUT_MS - start) 0 start le_rfl
  · rw [List.all_eq_true]
    intro l hl
    simp only [decide_eq_true_eq]
    revert hl
    simp only [wait_for_addresses_trace]
    by_cases hE : ((rows.filter (fun row => row.luidValue == luidValue)).isEmpty) = true
    · simp [hE]
    · simp only [hE, if_false]
      intro hl
      exact waitLoopTrace_mem_cand _ _ _ _ (start + DAD_CHECK_TIMEOUT_MS - start)
        0 start le_rfl l hl


end Claims
